import Mathlib

/-!
Verification of the conversational core of the langraph-chatbot repository.

The development shallowly embeds the turn-routing state machine of
`src/graph_builder.py` (the `chatbot` node, the `tools` node and the
conditional router `_should_use_tools`), the in-memory session store of
`src/web_ui.py` (`create_new_session`, the `/api/chat` and
`/api/new_session` endpoints), and the non-interactive chat interface of
`src/chat_interface.py` (`NonInteractiveChatInterface.send_message`).

External collaborators (the chat model, the tool executors) are passed in
as explicit function parameters returning `Except`, mirroring calls that
may raise.
-/

namespace LangraphChatbot

/-- Role tag of a LangChain message (`msg.type` in the Python code).
Plain-dict messages produced by nodes are coerced by the framework's
`add_messages` reducer into objects carrying a `type`, so every message in
the graph state has one. -/
inductive MsgType
  | system
  | user
  | assistant
  | tool
deriving DecidableEq, Repr

/-- A structured tool-call request declared by an assistant message. -/
structure ToolCall where
  name : String
  args : String
  callId : String
deriving DecidableEq, Repr

/-- A message in the graph state.  `tool_calls = none` models a message
object without a `tool_calls` attribute (`hasattr` is false); `some l`
models a message whose `tool_calls` attribute holds the list `l`. -/
structure Msg where
  type : MsgType
  content : String
  tool_calls : Option (List ToolCall)
deriving DecidableEq, Repr

/-- `GraphBuilder._should_use_tools` (src/graph_builder.py lines 239-256):
empty message list returns the string `end`; otherwise the last message is
routed to `tools` exactly when it has a truthy (non-empty) `tool_calls`
attribute, and to `end` otherwise. -/
def shouldUseTools (msgs : List Msg) : String :=
  match msgs.getLast? with
  | none => "end"
  | some lastMessage =>
    match lastMessage.tool_calls with
    | some (_ :: _) => "tools"
    | _ => "end"

/-- The `SystemMessage` built from the stored system prompt
(src/graph_builder.py line 165). -/
def systemMessage (systemPrompt : String) : Msg :=
  { type := MsgType.system, content := systemPrompt, tool_calls := none }

/-- The list handed to the model by `_chatbot_node_with_monitoring`
(src/graph_builder.py lines 153-166): when no message of the list has
`type = system` and the builder has a `system_prompt` attribute, a fresh
`SystemMessage` with that prompt is consed at the front; otherwise the
list is passed unchanged. -/
def handedMessages (hasSystemPrompt : Bool) (systemPrompt : String)
    (msgs : List Msg) : List Msg :=
  let hasSystemMessage := msgs.any (fun m => m.type == MsgType.system)
  if !hasSystemMessage && hasSystemPrompt then
    systemMessage systemPrompt :: msgs
  else
    msgs

/-- The fixed fallback assistant message returned by the chatbot node's
exception handler (src/graph_builder.py line 200); the returned dict has a
`role` key and no `tool_calls` attribute. -/
def fallbackMessage : Msg :=
  { type := MsgType.assistant
    content := "I encountered an error. Please try again."
    tool_calls := none }

/-- `GraphBuilder._chatbot_node_with_monitoring`
(src/graph_builder.py lines 142-200): invoke the model on the (possibly
system-prefixed) message list; on success the update is the single
response message, on any exception the update is the single fixed
fallback assistant message.  Monitoring calls have no effect on the
returned update and are omitted. -/
def chatbotNodeWithMonitoring (hasSystemPrompt : Bool) (systemPrompt : String)
    (invoke : List Msg → Except String Msg) (msgs : List Msg) : List Msg :=
  match invoke (handedMessages hasSystemPrompt systemPrompt msgs) with
  | Except.ok response => [response]
  | Except.error _ => [fallbackMessage]

/-- Modelled from the spec: the prebuilt `ToolNode`
(`langgraph.prebuilt.ToolNode`, a library dependency whose source is not
in this repository) executes each tool-call request declared by the last
message against the tool registry, "producing one tool-result message per
request, preserving request order", and "on any individual tool failure,
synthesize a tool-result message carrying the failure description (never
abort the whole turn)". `exec` is the per-call execution capability;
`Except.error e` models a raised exception with description `e`. -/
def toolResultMsg (exec : ToolCall → Except String String)
    (c : ToolCall) : Msg :=
  match exec c with
  | Except.ok r =>
      { type := MsgType.tool, content := r, tool_calls := none }
  | Except.error e =>
      { type := MsgType.tool, content := "Error: " ++ e, tool_calls := none }

/-- Modelled from the spec (continued): the full `ToolNode` run over the
last message's declared tool calls, in request order. -/
def toolNodeRun (exec : ToolCall → Except String String)
    (msgs : List Msg) : List Msg :=
  match msgs.getLast? with
  | none => []
  | some lastMessage =>
    (lastMessage.tool_calls.getD []).map (toolResultMsg exec)

/-- `GraphBuilder._tools_node_with_monitoring`
(src/graph_builder.py lines 202-237): runs the prebuilt `ToolNode` on the
state.  Individual tool failures are absorbed inside the `ToolNode`
(modelled by `toolNodeRun`, which is total), so the wrapper's own
exception handler (which would return the state unchanged) is not
reached for per-tool failures; monitoring calls do not affect the
returned update. -/
def toolsNodeWithMonitoring (exec : ToolCall → Except String String)
    (msgs : List Msg) : List Msg :=
  toolNodeRun exec msgs

/-- The three positions of the compiled graph built by `_construct_graph`
(src/graph_builder.py lines 95-130) when web search is enabled:
the `chatbot` node, the `tools` node, and `END`. -/
inductive NodeTag
  | chatbot
  | tools
  | done
deriving DecidableEq, Repr

/-- An execution state of the compiled graph: the accumulated message
list (updates are appended by the `add_messages` reducer of
src/state.py), the node about to run, and a count of how many times the
conditional edge has routed `chatbot -> tools` (one model/tool cycle). -/
structure GState where
  msgs : List Msg
  node : NodeTag
  cycles : Nat
deriving Repr

/-- One step of the compiled graph of `_construct_graph`
(src/graph_builder.py lines 104-123): `chatbot` runs
`_chatbot_node_with_monitoring`, appends its update, then follows the
conditional edge given by `_should_use_tools` (`tools` to the tools node,
anything else to `END`); `tools` runs `_tools_node_with_monitoring`,
appends its update, and always returns to `chatbot`; `END` is absorbing. -/
def stepG (hasSystemPrompt : Bool) (systemPrompt : String)
    (invoke : List Msg → Except String Msg)
    (exec : ToolCall → Except String String) (gs : GState) : GState :=
  match gs.node with
  | NodeTag.chatbot =>
    let upd := chatbotNodeWithMonitoring hasSystemPrompt systemPrompt invoke gs.msgs
    let msgs2 := gs.msgs ++ upd
    if shouldUseTools msgs2 = "tools" then
      { msgs := msgs2, node := NodeTag.tools, cycles := gs.cycles + 1 }
    else
      { msgs := msgs2, node := NodeTag.done, cycles := gs.cycles }
  | NodeTag.tools =>
    { msgs := gs.msgs ++ toolsNodeWithMonitoring exec gs.msgs
      node := NodeTag.chatbot
      cycles := gs.cycles }
  | NodeTag.done => gs

/-- Iterate `stepG` a given number of times. -/
def runSteps (hasSystemPrompt : Bool) (systemPrompt : String)
    (invoke : List Msg → Except String Msg)
    (exec : ToolCall → Except String String) : Nat → GState → GState
  | 0, gs => gs
  | n + 1, gs =>
    runSteps hasSystemPrompt systemPrompt invoke exec n
      (stepG hasSystemPrompt systemPrompt invoke exec gs)

/-- A web session identifier (src/web_ui.py).  `create_new_session`
(lines 31-45) formats `web_session_{t}_{c}` from the integer timestamp
second `t` and the incremented global counter `c`; the `/api/new_session`
endpoint (lines 176-198) formats `web_session_{t}` from the timestamp
alone.  The two formats are distinct strings for all arguments and the
formatting is injective in `t` and `c`, so identifiers are modelled by
the two constructors. -/
inductive SessionId
  | timeCounter (t : Nat) (c : Nat)
  | timeOnly (t : Nat)
deriving DecidableEq, Repr

/-- An entry of a session's message history in `web_sessions`
(role, content, and the timestamp at which it was appended). -/
structure WebMessage where
  role : String
  content : String
  timestamp : Nat
deriving DecidableEq, Repr

/-- The per-session record stored in the `web_sessions` dict. -/
structure SessionData where
  messages : List WebMessage
  createdAt : Nat
  lastActivity : Nat
deriving DecidableEq, Repr

/-- The module-level mutable state of src/web_ui.py: the global
`session_counter` and the `web_sessions` dict (modelled as an
association list with most-recent insertion first, matching dict
overwrite-on-insert under head-first lookup).  `allocated` is a ghost
history variable recording every identifier ever returned by a
session-creation call; no operation removes from it.  It exists only to
state freshness ("previously-unseen identifier"). -/
structure Store where
  sessionCounter : Nat
  webSessions : List (SessionId × SessionData)
  allocated : List SessionId
deriving DecidableEq, Repr

/-- The keys of the `web_sessions` dict. -/
def sessionKeys (st : Store) : List SessionId :=
  st.webSessions.map Prod.fst

/-- The Python membership test `session_id in web_sessions`. -/
def hasSession (st : Store) (sid : SessionId) : Bool :=
  decide (sid ∈ sessionKeys st)

/-- `create_new_session` (src/web_ui.py lines 31-45): increments the
global counter, allocates `web_session_{now}_{counter}`, and inserts a
fresh record with empty message list and creation/last-activity time
`now`. -/
def createNewSession (now : Nat) (st : Store) : SessionId × Store :=
  let counter := st.sessionCounter + 1
  let sid := SessionId.timeCounter now counter
  (sid,
   { sessionCounter := counter
     webSessions :=
       (sid, { messages := [], createdAt := now, lastActivity := now }) :: st.webSessions
     allocated := sid :: st.allocated })

/-- The `/api/new_session` endpoint (src/web_ui.py lines 176-198):
deletes the caller's current Flask-session entry when it is present in
the store, then allocates the timestamp-only identifier
`web_session_{now}` and inserts a fresh record.  (The endpoint builds
the identifier itself rather than calling `create_new_session`; its
record omits the `last_activity` key, modelled here as set to the
creation time.) -/
def newSessionEndpoint (now : Nat) (flaskSid : Option SessionId)
    (st : Store) : SessionId × Store :=
  let st1 :=
    match flaskSid with
    | some fs =>
      if hasSession st fs then
        { st with webSessions := st.webSessions.filter (fun p => !(p.1 == fs)) }
      else st
    | none => st
  let sid := SessionId.timeOnly now
  (sid,
   { st1 with
     webSessions :=
       (sid, { messages := [], createdAt := now, lastActivity := now }) :: st1.webSessions
     allocated := sid :: st1.allocated })

/-- Refresh a session's `last_activity` time (the dict update
`web_sessions[session_id]["last_activity"] = time.time()`). -/
def touchSession (st : Store) (sid : SessionId) (now : Nat) : Store :=
  { st with
    webSessions := st.webSessions.map (fun p =>
      if p.1 == sid then (p.1, { p.2 with lastActivity := now }) else p) }

/-- Append a message to a session's history (the list append on
`web_sessions[session_id]["messages"]`). -/
def appendToSession (st : Store) (sid : SessionId) (m : WebMessage) : Store :=
  { st with
    webSessions := st.webSessions.map (fun p =>
      if p.1 == sid then (p.1, { p.2 with messages := p.2.messages ++ [m] }) else p) }

/-- The session-resolution step of the `/api/chat` endpoint
(src/web_ui.py lines 90-97): an absent (or falsy) `X-Session-ID` header,
or one not present in `web_sessions`, triggers `create_new_session`;
otherwise the supplied identifier is kept; in every case the resolved
session's `last_activity` is then refreshed. -/
def resolveSessionChat (now : Nat) (hdr : Option SessionId)
    (st : Store) : SessionId × Store :=
  let res :=
    match hdr with
    | none => createNewSession now st
    | some s => if hasSession st s then (s, st) else createNewSession now st
  (res.1, touchSession res.2 res.1 now)

/-- The whitespace characters stripped by Python's `str.strip()`
(restricted to the ASCII whitespace class). -/
def isPySpace (c : Char) : Bool :=
  c == ' ' || c == '\t' || c == '\n' || c == '\r' || c == '\x0b' || c == '\x0c'

/-- Python's `s.strip()`: remove leading and trailing whitespace. -/
def pyStrip (s : String) : String :=
  String.mk (((s.toList.dropWhile isPySpace).reverse.dropWhile isPySpace).reverse)

/-- The `/api/chat` endpoint (src/web_ui.py lines 76-157).  `body` is the
`message` field of the request JSON (`none` when absent, defaulted to the
empty string), `hdr` the `X-Session-ID` header.  A message that strips to
empty is rejected with HTTP 400 and the error text, before any session is
touched.  Otherwise the session is resolved (lines 90-97), the user
message is appended, the graph is streamed — abstracted as the opaque
`respond` capability returning the final assistant text — the assistant
message is appended, and the formatted reply is returned with HTTP 200. -/
def chatEndpoint (now : Nat) (hdr : Option SessionId) (body : Option String)
    (respond : String → String) (st : Store) : Nat × String × Store :=
  let userMessage := pyStrip (body.getD "")
  if userMessage = "" then
    (400, "Message cannot be empty", st)
  else
    let res := resolveSessionChat now hdr st
    let st2 := appendToSession res.2 res.1
      { role := "user", content := userMessage, timestamp := now }
    let fullResponse := respond userMessage
    let st3 := appendToSession st2 res.1
      { role := "assistant", content := fullResponse, timestamp := now }
    (200, "Assistant: " ++ fullResponse, st3)

/-- `ChatMessage` (src/chat_interface.py lines 10-15). -/
structure ChatMessage where
  role : String
  content : String
  timestamp : Option String
deriving DecidableEq, Repr

/-- The state of a `NonInteractiveChatInterface`
(src/chat_interface.py lines 124-129): the inherited `max_turns`
(default 50) and `turn_count` (initially 0), plus its own
`conversation_history` (initially empty). -/
structure NIChat where
  maxTurns : Nat
  turnCount : Nat
  conversationHistory : List ChatMessage
deriving DecidableEq, Repr

/-- A freshly constructed `NonInteractiveChatInterface` with the default
`max_turns = 50`. -/
def initNIChat : NIChat :=
  { maxTurns := 50, turnCount := 0, conversationHistory := [] }

/-- `NonInteractiveChatInterface.send_message`
(src/chat_interface.py lines 131-149): at or above the turn cap it
returns the fixed refusal string and changes nothing; below the cap it
appends one user `ChatMessage`, processes the input
(`_process_user_input` swallows handler exceptions, so the method's own
`except` branch is unreachable), increments the turn count, and returns
the placeholder response naming the new count. -/
def sendMessage (c : NIChat) (message : String) : String × NIChat :=
  if c.maxTurns ≤ c.turnCount then
    ("Maximum conversation turns reached.", c)
  else
    ("Message processed (turn " ++ toString (c.turnCount + 1) ++ ")",
     { c with
       conversationHistory :=
         c.conversationHistory ++ [{ role := "user", content := message, timestamp := none }]
       turnCount := c.turnCount + 1 })

/-- A message "declares one or more pending tool-call requests" when its
`tool_calls` attribute exists and is a non-empty list. -/
def hasPendingToolCalls (m : Msg) : Prop :=
  ∃ c cs, m.tool_calls = some (c :: cs)

theorem shouldUseTools_cases (msgs : List Msg) :
    shouldUseTools msgs = "tools" ∨ shouldUseTools msgs = "end" := by
  unfold shouldUseTools
  split
  · exact Or.inr rfl
  · split
    · exact Or.inl rfl
    · exact Or.inr rfl

theorem shouldUseTools_eq_tools_iff (msgs : List Msg) :
    shouldUseTools msgs = "tools" ↔
      ∃ m, msgs.getLast? = some m ∧ hasPendingToolCalls m := by
  unfold shouldUseTools hasPendingToolCalls
  split
  next heq => simp [heq]
  next m heq =>
    split
    next c cs htc => simp [heq, htc]
    next htc =>
      simp only [heq, Option.some.injEq]
      constructor
      · intro h
        exact absurd h (by decide)
      · rintro ⟨m', rfl, c, cs, hcs⟩
        exact absurd hcs (htc c cs)

/-- C1: `_should_use_tools` returns `tools` exactly when the message list
is non-empty and its last message has a non-empty `tool_calls` attribute;
on an empty message list it returns `end`, and in every other case its
value is `end` as well. -/
theorem turn_decision_tools_iff_pending_calls (msgs : List Msg) :
    (shouldUseTools msgs = "tools" ↔
      ∃ m, msgs.getLast? = some m ∧ hasPendingToolCalls m) ∧
    (msgs = [] → shouldUseTools msgs = "end") ∧
    (∀ m, msgs.getLast? = some m → ¬ hasPendingToolCalls m →
      shouldUseTools msgs = "end") := by
  refine ⟨shouldUseTools_eq_tools_iff msgs, ?_, ?_⟩
  · rintro rfl
    rfl
  · intro m hm hnp
    rcases shouldUseTools_cases msgs with ht | he
    · rcases (shouldUseTools_eq_tools_iff msgs).mp ht with ⟨m', hm', hp⟩
      rw [hm] at hm'
      cases Option.some.inj hm'
      exact absurd hp hnp
    · exact he

/-- Witness for C1 at a concrete input: a singleton transcript whose only
message carries one pending tool call routes to `tools`, and the empty
transcript routes to `end`. -/
theorem turn_decision_tools_iff_pending_calls_witness :
    shouldUseTools
      [{ type := MsgType.assistant, content := "", tool_calls :=
          some [{ name := "tavily_search", args := "q", callId := "1" }] }] = "tools" ∧
    shouldUseTools [] = "end" := by
  constructor
  · exact (turn_decision_tools_iff_pending_calls _).1.mpr
      ⟨_, rfl, _, _, rfl⟩
  · exact (turn_decision_tools_iff_pending_calls []).2.1 rfl

/-- C2: the turn decision is a pure function of the last message:
prepending arbitrary history `H` to a non-empty transcript `T` never
changes the decision, and any two transcripts with the same last message
decide alike. -/
theorem turn_decision_depends_only_on_last (H T : List Msg) (h : T ≠ []) :
    shouldUseTools (H ++ T) = shouldUseTools T ∧
    (∀ T2 : List Msg, T2.getLast? = T.getLast? →
      shouldUseTools T2 = shouldUseTools T) := by
  have hlast : (H ++ T).getLast? = T.getLast? := by
    rw [List.getLast?_append]
    rcases Option.isSome_iff_exists.mp (List.getLast?_isSome.mpr h) with ⟨a, ha⟩
    rw [ha]
    rfl
  constructor
  · unfold shouldUseTools
    rw [hlast]
  · intro T2 h2
    unfold shouldUseTools
    rw [h2]

/-- Witness for C2 at a concrete input: prepending a user message to a
singleton assistant transcript leaves the decision unchanged. -/
theorem turn_decision_depends_only_on_last_witness :
    shouldUseTools
      ([{ type := MsgType.user, content := "hi", tool_calls := none }] ++
       [{ type := MsgType.assistant, content := "hello", tool_calls := none }]) =
    shouldUseTools
      [{ type := MsgType.assistant, content := "hello", tool_calls := none }] :=
  (turn_decision_depends_only_on_last
    [{ type := MsgType.user, content := "hi", tool_calls := none }]
    [{ type := MsgType.assistant, content := "hello", tool_calls := none }]
    (by simp)).1

theorem string_end_ne_tools : ("end" : String) ≠ "tools" := by decide

theorem shouldUseTools_concat_none (l : List Msg) (m : Msg)
    (h : m.tool_calls = none) : shouldUseTools (l ++ [m]) = "end" := by
  unfold shouldUseTools
  rw [show (l ++ [m]).getLast? = some m by simp]
  dsimp only
  rw [h]

theorem shouldUseTools_concat_pending (l : List Msg) (m : Msg)
    (c : ToolCall) (cs : List ToolCall) (h : m.tool_calls = some (c :: cs)) :
    shouldUseTools (l ++ [m]) = "tools" := by
  unfold shouldUseTools
  rw [show (l ++ [m]).getLast? = some m by simp]
  dsimp only
  rw [h]

/-- Unfolding equation of `stepG` at the chatbot node. -/
theorem stepG_chatbot (hasSystemPrompt : Bool) (systemPrompt : String)
    (invoke : List Msg → Except String Msg)
    (exec : ToolCall → Except String String) (msgs : List Msg) (k : Nat) :
    stepG hasSystemPrompt systemPrompt invoke exec
      { msgs := msgs, node := NodeTag.chatbot, cycles := k } =
      (if shouldUseTools
            (msgs ++ chatbotNodeWithMonitoring hasSystemPrompt systemPrompt invoke msgs) =
          "tools" then
        { msgs := msgs ++ chatbotNodeWithMonitoring hasSystemPrompt systemPrompt invoke msgs
          node := NodeTag.tools, cycles := k + 1 }
      else
        { msgs := msgs ++ chatbotNodeWithMonitoring hasSystemPrompt systemPrompt invoke msgs
          node := NodeTag.done, cycles := k }) := rfl

/-- Unfolding equation of `stepG` at the tools node. -/
theorem stepG_tools (hasSystemPrompt : Bool) (systemPrompt : String)
    (invoke : List Msg → Except String Msg)
    (exec : ToolCall → Except String String) (msgs : List Msg) (k : Nat) :
    stepG hasSystemPrompt systemPrompt invoke exec
      { msgs := msgs, node := NodeTag.tools, cycles := k } =
      { msgs := msgs ++ toolsNodeWithMonitoring exec msgs
        node := NodeTag.chatbot, cycles := k } := rfl

/-- C7: the chatbot node inserts the fixed system instruction exactly
when the incoming list has no system-role message, and then exactly one
copy of it is in the list handed to the model; when a system-role message
is already present the list is handed over unchanged. -/
theorem system_message_inserted_only_when_absent (systemPrompt : String)
    (msgs : List Msg) :
    ((∀ m ∈ msgs, m.type ≠ MsgType.system) →
      handedMessages true systemPrompt msgs = systemMessage systemPrompt :: msgs ∧
      (handedMessages true systemPrompt msgs).count (systemMessage systemPrompt) = 1) ∧
    ((∃ m ∈ msgs, m.type = MsgType.system) →
      handedMessages true systemPrompt msgs = msgs) := by
  constructor
  · intro hno
    have hany : msgs.any (fun m => m.type == MsgType.system) = false := by
      rw [List.any_eq_false]
      intro m hm
      simpa using hno m hm
    have heq : handedMessages true systemPrompt msgs = systemMessage systemPrompt :: msgs := by
      unfold handedMessages
      simp [hany]
    refine ⟨heq, ?_⟩
    rw [heq, List.count_cons_self, List.count_eq_zero_of_not_mem]
    intro hmem
    exact hno _ hmem rfl
  · rintro ⟨m, hm, hty⟩
    have hany : msgs.any (fun m => m.type == MsgType.system) = true := by
      rw [List.any_eq_true]
      exact ⟨m, hm, by simp [hty]⟩
    unfold handedMessages
    simp [hany]

/-- Witness for C7 at a concrete input: for a one-user-message incoming
list the handed list is the system message consed in front, containing
one copy of it. -/
theorem system_message_inserted_only_when_absent_witness :
    handedMessages true ("helpful assistant")
        [{ type := MsgType.user, content := "hi", tool_calls := none }] =
      systemMessage ("helpful assistant") ::
        [{ type := MsgType.user, content := "hi", tool_calls := none }] ∧
    (handedMessages true ("helpful assistant")
        [{ type := MsgType.user, content := "hi", tool_calls := none }]).count
      (systemMessage ("helpful assistant")) = 1 :=
  (system_message_inserted_only_when_absent ("helpful assistant")
    [{ type := MsgType.user, content := "hi", tool_calls := none }]).1
    (by decide)

/-- C4: when the model invocation raises, the chatbot node's update is
exactly the one fixed fallback assistant message, the router then routes
to `end` (the turn completes), and the graph step is a total function
returning that outcome (no exception propagates). -/
theorem chatbot_node_fallback_on_model_error (hasSystemPrompt : Bool)
    (systemPrompt : String) (invoke : List Msg → Except String Msg)
    (exec : ToolCall → Except String String) (msgs : List Msg)
    (e : String) (k : Nat)
    (h : invoke (handedMessages hasSystemPrompt systemPrompt msgs) = Except.error e) :
    chatbotNodeWithMonitoring hasSystemPrompt systemPrompt invoke msgs =
      [fallbackMessage] ∧
    fallbackMessage.type = MsgType.assistant ∧
    fallbackMessage.content = "I encountered an error. Please try again." ∧
    shouldUseTools (msgs ++ [fallbackMessage]) = "end" ∧
    (stepG hasSystemPrompt systemPrompt invoke exec
        { msgs := msgs, node := NodeTag.chatbot, cycles := k }).node =
      NodeTag.done := by
  have hupd : chatbotNodeWithMonitoring hasSystemPrompt systemPrompt invoke msgs =
      [fallbackMessage] := by
    unfold chatbotNodeWithMonitoring
    rw [h]
  have hroute : shouldUseTools (msgs ++ [fallbackMessage]) = "end" :=
    shouldUseTools_concat_none msgs fallbackMessage rfl
  refine ⟨hupd, rfl, rfl, hroute, ?_⟩
  rw [stepG_chatbot, hupd, if_neg (hroute ▸ string_end_ne_tools)]

/-- Witness for C4 at a concrete input: with a model that always raises,
the node on a one-user-message state returns the fallback update and the
step ends the turn. -/
theorem chatbot_node_fallback_on_model_error_witness :
    chatbotNodeWithMonitoring true ("sys")
        (fun _ => Except.error ("network down"))
        [{ type := MsgType.user, content := "hi", tool_calls := none }] =
      [fallbackMessage] ∧
    fallbackMessage.type = MsgType.assistant ∧
    fallbackMessage.content = "I encountered an error. Please try again." ∧
    shouldUseTools
        ([{ type := MsgType.user, content := "hi", tool_calls := none }] ++
          [fallbackMessage]) = "end" ∧
    (stepG true ("sys") (fun _ => Except.error ("network down"))
        (fun _ => Except.ok ("r"))
        { msgs := [{ type := MsgType.user, content := "hi", tool_calls := none }]
          node := NodeTag.chatbot, cycles := 0 }).node = NodeTag.done :=
  chatbot_node_fallback_on_model_error true ("sys")
    (fun _ => Except.error ("network down")) (fun _ => Except.ok ("r"))
    [{ type := MsgType.user, content := "hi", tool_calls := none }]
    ("network down") 0 rfl

/-- C3: when the last message declares tool calls, the tools node's
update is exactly one synthesized tool-result message per request in
request order; each failed request yields a tool-role message whose
content carries the failure description; and (the node being a total
function, no exception propagates) running the graph on from the tools
node reaches `END` in two steps as soon as the model's next reply
declares no tool calls. -/
theorem tools_node_synthesizes_error_results
    (exec : ToolCall → Except String String) (msgs : List Msg)
    (m : Msg) (tcs : List ToolCall)
    (hlast : msgs.getLast? = some m) (htc : m.tool_calls = some tcs) :
    toolsNodeWithMonitoring exec msgs = tcs.map (toolResultMsg exec) ∧
    (toolsNodeWithMonitoring exec msgs).length = tcs.length ∧
    (∀ c ∈ tcs, ∀ e : String, exec c = Except.error e →
      (toolResultMsg exec c).type = MsgType.tool ∧
      (toolResultMsg exec c).content = "Error: " ++ e ∧
      toolResultMsg exec c ∈ toolsNodeWithMonitoring exec msgs) ∧
    (∀ (hasSystemPrompt : Bool) (systemPrompt : String) (reply : Msg),
      reply.tool_calls = none → ∀ k,
      (runSteps hasSystemPrompt systemPrompt (fun _ => Except.ok reply) exec 2
        { msgs := msgs, node := NodeTag.tools, cycles := k }).node =
        NodeTag.done) := by
  have hout : toolsNodeWithMonitoring exec msgs = tcs.map (toolResultMsg exec) := by
    unfold toolsNodeWithMonitoring toolNodeRun
    rw [hlast]
    dsimp only
    rw [htc]
    rfl
  refine ⟨hout, by rw [hout, List.length_map], ?_, ?_⟩
  · intro c hc e he
    refine ⟨?_, ?_, ?_⟩
    · unfold toolResultMsg
      rw [he]
    · unfold toolResultMsg
      rw [he]
    · rw [hout]
      exact List.mem_map_of_mem _ hc
  · intro hasSystemPrompt systemPrompt reply hrep k
    have hupd : chatbotNodeWithMonitoring hasSystemPrompt systemPrompt
        (fun _ => Except.ok reply) (msgs ++ toolsNodeWithMonitoring exec msgs) =
        [reply] := rfl
    have hroute := shouldUseTools_concat_none
      (msgs ++ toolsNodeWithMonitoring exec msgs) reply hrep
    simp only [runSteps]
    rw [stepG_tools, stepG_chatbot, hupd, if_neg (hroute ▸ string_end_ne_tools)]

/-- A concrete declared search call used by concrete instantiations. -/
def searchCallQ : ToolCall := { name := "tavily_search", args := "q", callId := "1" }

/-- A concrete assistant message declaring one pending search call. -/
def pendingSearchMsg : Msg :=
  { type := MsgType.assistant, content := "", tool_calls := some [searchCallQ] }

/-- A concrete assistant reply with no pending tool calls. -/
def doneReply : Msg :=
  { type := MsgType.assistant, content := "done", tool_calls := none }

/-- A tool registry whose execution always raises with description
`boom`. -/
def boomExec : ToolCall → Except String String := fun _ => Except.error ("boom")

/-- Witness for C3 at a concrete input: one declared search call whose
execution raises; the update is one tool message carrying the error
text, and the run from the tools node ends after the next model reply. -/
theorem tools_node_synthesizes_error_results_witness :
    toolsNodeWithMonitoring boomExec [pendingSearchMsg] =
      [searchCallQ].map (toolResultMsg boomExec) ∧
    (toolResultMsg boomExec searchCallQ).content = "Error: " ++ "boom" ∧
    (runSteps true ("sys") (fun _ => Except.ok doneReply) boomExec 2
        { msgs := [pendingSearchMsg], node := NodeTag.tools, cycles := 0 }).node =
      NodeTag.done := by
  have h := tools_node_synthesizes_error_results boomExec
    [pendingSearchMsg] pendingSearchMsg [searchCallQ] rfl rfl
  refine ⟨h.1, ?_, ?_⟩
  · exact (h.2.2.1 searchCallQ (by simp) ("boom") rfl).2.1
  · exact h.2.2.2 true ("sys") doneReply rfl 0

/-- The tool-call request reissued forever in the divergence witness. -/
def searchToolCall : ToolCall :=
  { name := "tavily_search", args := "latest", callId := "1" }

/-- A model reply that declares one pending tool call. -/
def loopReply : Msg :=
  { type := MsgType.assistant, content := "", tool_calls := some [searchToolCall] }

/-- A model that reissues the same tool call on every invocation. -/
def loopInvoke : List Msg → Except String Msg :=
  fun _ => Except.ok loopReply

/-- A tool registry whose execution always succeeds. -/
def okExec : ToolCall → Except String String :=
  fun _ => Except.ok ("result")

theorem loop_invariant (systemPrompt : String) : ∀ (n : Nat) (msgs : List Msg) (k : Nat),
    (runSteps true systemPrompt loopInvoke okExec (2 * n)
      { msgs := msgs, node := NodeTag.chatbot, cycles := k }).node = NodeTag.chatbot ∧
    (runSteps true systemPrompt loopInvoke okExec (2 * n)
      { msgs := msgs, node := NodeTag.chatbot, cycles := k }).cycles = k + n := by
  intro n
  induction n with
  | zero => exact fun msgs k => ⟨rfl, rfl⟩
  | succ n ih =>
    intro msgs k
    have h2 : 2 * (n + 1) = 2 * n + 1 + 1 := by omega
    rw [h2]
    simp only [runSteps]
    have hstep1 : stepG true systemPrompt loopInvoke okExec
        { msgs := msgs, node := NodeTag.chatbot, cycles := k } =
        { msgs := msgs ++ [loopReply], node := NodeTag.tools, cycles := k + 1 } := by
      have hupd : chatbotNodeWithMonitoring true systemPrompt loopInvoke msgs =
          [loopReply] := rfl
      rw [stepG_chatbot, hupd,
        if_pos (shouldUseTools_concat_pending msgs loopReply searchToolCall [] rfl)]
    rw [hstep1, stepG_tools]
    refine ⟨(ih _ _).1, ?_⟩
    rw [(ih _ _).2]
    omega

/-- C8: no cycle cap exists: for every `n` there is a model behaviour
(every reply declaring a pending tool call) under which the graph makes
more than `n` chatbot-to-tools cycles in a single turn and is still not
at `END`. -/
theorem unbounded_tool_cycles (n : Nat) :
    ∃ (invoke : List Msg → Except String Msg)
      (exec : ToolCall → Except String String),
      (∀ l, ∃ r, invoke l = Except.ok r ∧ hasPendingToolCalls r) ∧
      (runSteps true ("sys") invoke exec (2 * (n + 1))
        { msgs := [{ type := MsgType.user, content := "hi", tool_calls := none }]
          node := NodeTag.chatbot, cycles := 0 }).node ≠ NodeTag.done ∧
      (runSteps true ("sys") invoke exec (2 * (n + 1))
        { msgs := [{ type := MsgType.user, content := "hi", tool_calls := none }]
          node := NodeTag.chatbot, cycles := 0 }).cycles > n := by
  refine ⟨loopInvoke, okExec,
    fun l => ⟨loopReply, rfl, searchToolCall, [], rfl⟩, ?_, ?_⟩
  · rw [(loop_invariant ("sys") (n + 1) _ 0).1]
    decide
  · rw [(loop_invariant ("sys") (n + 1) _ 0).2]
    omega

/-- Witness for C8 at a concrete bound: three or more cycles occur with
the turn still unfinished. -/
theorem unbounded_tool_cycles_witness :
    ∃ (invoke : List Msg → Except String Msg)
      (exec : ToolCall → Except String String),
      (∀ l, ∃ r, invoke l = Except.ok r ∧ hasPendingToolCalls r) ∧
      (runSteps true ("sys") invoke exec (2 * (2 + 1))
        { msgs := [{ type := MsgType.user, content := "hi", tool_calls := none }]
          node := NodeTag.chatbot, cycles := 0 }).node ≠ NodeTag.done ∧
      (runSteps true ("sys") invoke exec (2 * (2 + 1))
        { msgs := [{ type := MsgType.user, content := "hi", tool_calls := none }]
          node := NodeTag.chatbot, cycles := 0 }).cycles > 2 :=
  unbounded_tool_cycles 2

theorem sessionKeys_touch (st : Store) (sid : SessionId) (now : Nat) :
    sessionKeys (touchSession st sid now) = sessionKeys st := by
  unfold sessionKeys touchSession
  dsimp only
  rw [List.map_map]
  apply List.map_congr_left
  intro p _
  simp only [Function.comp]
  split <;> rfl

theorem hasSession_iff (st : Store) (sid : SessionId) :
    hasSession st sid = true ↔ sid ∈ sessionKeys st := by
  unfold hasSession
  exact decide_eq_true_iff

/-- Every identifier ever allocated carries a counter component no larger
than the current global counter; this is the freshness invariant that
`create_new_session` maintains by always incrementing the counter
(timestamp-only identifiers from `/api/new_session` have no counter
component and cannot equal a counter-bearing one). -/
def storeInv (st : Store) : Prop :=
  ∀ t c : Nat, SessionId.timeCounter t c ∈ st.allocated → c ≤ st.sessionCounter

theorem fresh_not_allocated (now : Nat) (st : Store) (hinv : storeInv st) :
    SessionId.timeCounter now (st.sessionCounter + 1) ∉ st.allocated := by
  intro hmem
  exact absurd (hinv now _ hmem) (by omega)

/-- The empty initial store of src/web_ui.py: counter `0`, no sessions. -/
def storeZero : Store :=
  { sessionCounter := 0, webSessions := [], allocated := [] }

/-- C5 fails on the code: the `/api/new_session` endpoint builds its
identifier from the timestamp alone, so two creations within the same
clock second (here both at second 1000, starting from the initial store)
return the same identifier `web_session_1000`. -/
theorem new_session_endpoint_id_collision :
    (newSessionEndpoint 1000 none storeZero).1 =
      (newSessionEndpoint 1000 none
        (newSessionEndpoint 1000 none storeZero).2).1 ∧
    (newSessionEndpoint 1000 none storeZero).1 = SessionId.timeOnly 1000 ∧
    (createNewSession 1000 storeZero).1 ≠
      (createNewSession 1000 (createNewSession 1000 storeZero).2).1 := by
  decide

/-- C6 fails as stated at a concrete input: the identifier
`web_session_5_1` is unknown to the empty store, yet resolving it at
timestamp second 5 allocates exactly `web_session_5_1` (the counter is 0,
so `create_new_session` produces timestamp 5 with counter 1) and returns
the very identifier that was supplied. -/
theorem resolve_unknown_id_counterexample :
    hasSession storeZero (SessionId.timeCounter 5 1) = false ∧
    (resolveSessionChat 5 (some (SessionId.timeCounter 5 1)) storeZero).1 =
      SessionId.timeCounter 5 1 := by
  decide

/-- C6 as amended: resolving with no identifier allocates a
previously-unseen identifier and creates that session; resolving with a
stored identifier returns exactly it, allocating nothing and leaving the
session keys unchanged; resolving with an unknown identifier allocates a
fresh (previously-unseen) identifier, which differs from the supplied
one except in the degenerate case where the supplied identifier equals
the allocator's next identifier (current timestamp second with counter
incremented by one). -/
theorem resolve_or_create_amended (now : Nat) (hdr : Option SessionId)
    (st : Store) (hinv : storeInv st) :
    (hdr = none →
      (resolveSessionChat now hdr st).1 ∉ st.allocated ∧
      hasSession (resolveSessionChat now hdr st).2
        (resolveSessionChat now hdr st).1 = true) ∧
    (∀ s, hdr = some s → hasSession st s = true →
      (resolveSessionChat now hdr st).1 = s ∧
      (resolveSessionChat now hdr st).2.allocated = st.allocated ∧
      sessionKeys (resolveSessionChat now hdr st).2 = sessionKeys st) ∧
    (∀ s, hdr = some s → hasSession st s = false →
      (resolveSessionChat now hdr st).1 =
        SessionId.timeCounter now (st.sessionCounter + 1) ∧
      (resolveSessionChat now hdr st).1 ∉ st.allocated ∧
      (s ≠ SessionId.timeCounter now (st.sessionCounter + 1) →
        (resolveSessionChat now hdr st).1 ≠ s)) := by
  refine ⟨?_, ?_, ?_⟩
  · rintro rfl
    refine ⟨fresh_not_allocated now st hinv, ?_⟩
    rw [hasSession_iff]
    show (createNewSession now st).1 ∈
      sessionKeys (touchSession (createNewSession now st).2 (createNewSession now st).1 now)
    rw [sessionKeys_touch]
    exact List.mem_cons_self _ _
  · rintro s rfl hs
    have hres : resolveSessionChat now (some s) st = (s, touchSession st s now) := by
      unfold resolveSessionChat
      dsimp only
      rw [hs]
      rfl
    rw [hres]
    exact ⟨rfl, rfl, sessionKeys_touch st s now⟩
  · rintro s rfl hs
    have hres : resolveSessionChat now (some s) st =
        ((createNewSession now st).1,
          touchSession (createNewSession now st).2 (createNewSession now st).1 now) := by
      unfold resolveSessionChat
      dsimp only
      rw [hs]
      rfl
    rw [hres]
    exact ⟨rfl, fresh_not_allocated now st hinv, fun hne => Ne.symm hne⟩

/-- Witness for C6-as-amended at a concrete input: resolving with no
identifier on the empty store returns an identifier never allocated
before and creates that session. -/
theorem resolve_or_create_amended_witness :
    (resolveSessionChat 7 none storeZero).1 ∉ storeZero.allocated ∧
    hasSession (resolveSessionChat 7 none storeZero).2
      (resolveSessionChat 7 none storeZero).1 = true :=
  (resolve_or_create_amended 7 none storeZero
    (fun _ _ h => absurd h (List.not_mem_nil _))).1 rfl

theorem pyStrip_all_space (s : String) (h : ∀ ch ∈ s.toList, isPySpace ch) :
    pyStrip s = "" := by
  unfold pyStrip
  have h1 : s.toList.dropWhile isPySpace = [] := by
    rw [List.dropWhile_eq_nil_iff]
    exact h
  rw [h1]
  rfl

/-- C9: a chat request whose `message` field is absent, empty, or
whitespace-only is answered with HTTP 400 and `Message cannot be empty`,
and the session store is returned unchanged: no session created, no
transcript entry appended, no last-activity refresh. -/
theorem chat_rejects_blank_message (now : Nat) (hdr : Option SessionId)
    (body : Option String) (respond : String → String) (st : Store)
    (h : body = none ∨ ∃ m, body = some m ∧ ∀ ch ∈ m.toList, isPySpace ch) :
    chatEndpoint now hdr body respond st = (400, "Message cannot be empty", st) := by
  have hempty : pyStrip (body.getD "") = "" := by
    rcases h with rfl | ⟨m, rfl, hm⟩
    · rfl
    · exact pyStrip_all_space m hm
  unfold chatEndpoint
  rw [hempty]
  rfl

/-- Witness for C9 at a concrete input: a whitespace-only message on the
empty store is rejected with 400 and the store is unchanged. -/
theorem chat_rejects_blank_message_witness :
    chatEndpoint 3 none (some ("  ")) (fun r => r) storeZero =
      (400, "Message cannot be empty", storeZero) :=
  chat_rejects_blank_message 3 none (some ("  ")) (fun r => r) storeZero
    (Or.inr ⟨"  ", rfl, by decide⟩)

/-- C10: at or above the configured cap (default 50), `send_message`
returns the fixed refusal and leaves history and turn count unchanged;
below the cap it appends exactly one user message and increments the
turn count by one. -/
theorem send_message_cap_and_increment (c : NIChat) (message : String) :
    initNIChat.maxTurns = 50 ∧
    (c.maxTurns ≤ c.turnCount →
      sendMessage c message = ("Maximum conversation turns reached.", c)) ∧
    (c.turnCount < c.maxTurns →
      (sendMessage c message).2.conversationHistory =
        c.conversationHistory ++
          [{ role := "user", content := message, timestamp := none }] ∧
      (sendMessage c message).2.turnCount = c.turnCount + 1) := by
  refine ⟨rfl, ?_, ?_⟩
  · intro hle
    unfold sendMessage
    rw [if_pos hle]
  · intro hlt
    unfold sendMessage
    rw [if_neg (by omega)]
    exact ⟨rfl, rfl⟩

/-- Witness for C10 at concrete inputs: an interface at its cap refuses
and is unchanged; a fresh default interface increments to turn 1. -/
theorem send_message_cap_and_increment_witness :
    sendMessage { maxTurns := 1, turnCount := 1, conversationHistory := [] } ("hi") =
      ("Maximum conversation turns reached.",
        { maxTurns := 1, turnCount := 1, conversationHistory := [] }) ∧
    (sendMessage initNIChat ("hi")).2.turnCount = 1 := by
  constructor
  · exact (send_message_cap_and_increment
      { maxTurns := 1, turnCount := 1, conversationHistory := [] } ("hi")).2.1
      (le_refl 1)
  · exact (send_message_cap_and_increment initNIChat ("hi")).2.2 (by decide) |>.2

end LangraphChatbot
